import Mathlib

/-
Shallow embedding of the delivery layer of `src/main.py` (a stats bot that
posts daily reports to a webhook channel and a chat channel).

Modelling conventions:
  - Python strings are Lean `String`s; the Python slice `s[:n]` is
    `strTake s n` (the first `n` characters).
  - Durations (seconds) are rationals `ℚ`; the Python float literal `0.2`
    is the exact rational `1/5`.
  - The network is an oracle `resp : Nat → Response` giving the response
    observed by the POST of attempt `i` (attempts are numbered from 0, as
    in `for attempt in range(5)`).  `Response.retryAfter` is the result of
    parsing `retry_after` out of the response JSON: `none` when absent or
    unparsable (the `except` branch of the code).
  - Environment variables that are unset are the empty string, matching
    the falsy check `if not DISCORD_WEBHOOK_URL`.
  - Side effects are reified as a trace: the list of network calls made
    (each carrying its payload) and the list of sleep durations requested.
  - `print` calls, the Cloudflare body sniff (which only prints), the
    `timestamp`/`footer` embed fields (wall clock and a constant) and the
    HTTP transport itself are outside the embedding.
-/

namespace W3C

/-- Python slice `s[:n]`: the first `n` characters of `s`. -/
def strTake (s : String) (n : Nat) : String := ⟨s.data.take n⟩

/-- A Discord embed as built by `make_player_embed` (the `timestamp` and
constant `footer` fields are omitted from the model). -/
structure Embed where
  title : String
  description : String
  color : Nat
  url : Option String
deriving DecidableEq

/-- Embed constructor `make_player_embed` from `src/main.py`: truncates the description to
3995 characters plus an ellipsis when it exceeds 4000, and substitutes
defaults for falsy title/description/url. -/
def make_player_embed (title : String) (description : String)
    (url : Option String) (color : Nat) : Embed :=
  let description :=
    if description ≠ "" ∧ 4000 < description.length then
      strTake description 3995 ++ "…"
    else description
  { title := if title = "" then "Update" else title
    description := if description = "" then "\u200B" else description
    color := color
    url := match url with
           | some u => if u = "" then none else some u
           | none => none }

/-- One simulated HTTP response: status code, body text (`r.text or ""`),
and the parsed `retry_after` field (`none` = absent or unparsable). -/
structure Response where
  status : Nat
  body : String
  retryAfter : Option ℚ
deriving DecidableEq

/-- The configuration read from the environment by the Discord sender:
`DISCORD_DISABLE`, `DISCORD_WEBHOOK_URL`, `DISCORD_WEBHOOK_USERNAME`.
Unset variables are modelled as `""`. -/
structure DiscordConfig where
  disable : String
  webhookUrl : String
  webhookUsername : String
deriving DecidableEq

/-- The JSON payload of one webhook POST (built once, before the retry
loop): a username and at most the first 10 embeds of the batch. -/
structure Payload where
  username : String
  embeds : List Embed
deriving DecidableEq

/-- Python `a or b` on strings: `b` when `a` is falsy (empty). -/
def strOr (a b : String) : String := if a = "" then b else a

/-- The retry loop of `send_discord_embeds` (`for attempt in range(5)`).
Arguments: the response oracle, the last response seen (`r` after the
loop; the initial value is never consulted because the fuel starts
positive), the current attempt index, the remaining attempts (fuel), and
the current backoff.  Returns the final `(status_code, message)` pair,
the number of POSTs made, and the sleeps performed, in order. -/
def sendLoop (resp : Nat → Response) :
    Response → Nat → Nat → ℚ → (Nat × String) × Nat × List ℚ
  | last, _, 0, _ => ((last.status, strTake last.body 600), 0, [])
  | _, attempt, fuel+1, backoff =>
    let r := resp attempt
    if r.status = 200 ∨ r.status = 204 then
      ((r.status, "OK"), 1, [])
    else if r.status = 429 then
      -- honour retry_after from the body, fall back to the current
      -- backoff; jitter 0.2*attempt; `continue` skips the backoff update
      let rest := sendLoop resp r (attempt + 1) fuel backoff
      (rest.1, rest.2.1 + 1,
        (r.retryAfter.getD backoff + (1/5 : ℚ) * (attempt : ℚ)) :: rest.2.2)
    else
      -- any other error: sleep backoff + jitter, then double up to 8.0
      let rest := sendLoop resp r (attempt + 1) fuel (min (backoff * 2) 8)
      (rest.1, rest.2.1 + 1,
        (backoff + (1/5 : ℚ) * (attempt : ℚ)) :: rest.2.2)

/-- Model of `send_discord_embeds` from `src/main.py`.  Returns the
`(status_code, message)` result together with the trace: the payloads of
the POSTs actually made and the sleeps performed.  `username` is the
optional keyword argument (modelled as `""` when absent, as in Python
`username or DISCORD_WEBHOOK_USERNAME`). -/
def send_discord_embeds (cfg : DiscordConfig) (embeds : List Embed)
    (username : String) (resp : Nat → Response) :
    (Nat × String) × List Payload × List ℚ :=
  if cfg.disable = "1" then ((204, "Discord disabled"), [], [])
  else if cfg.webhookUrl = "" then ((400, "DISCORD_WEBHOOK_URL is not set"), [], [])
  else if embeds = [] then ((204, "No embeds to send"), [], [])
  else
    let payload : Payload :=
      { username := strOr username cfg.webhookUsername
        embeds := embeds.take 10 }
    let r := sendLoop resp ⟨0, "", none⟩ 0 5 1
    (r.1, List.replicate r.2.1 payload, r.2.2)

/-- Chunking auxiliary for `safe_send_to_telegram`, with explicit fuel so
that it computes by structural recursion; each step peels off the first
4000 characters.  `fuel ≥ s.length` makes the `0, _` branch unreachable. -/
def chunkAux : Nat → List Char → List (List Char)
  | _, [] => []
  | 0, _ => []
  | fuel+1, c :: rest =>
    ((c :: rest).take 4000) :: chunkAux fuel ((c :: rest).drop 4000)

/-- The list `parts = [text[i:i+4000] for i in range(0, len(text), 4000)]`
of `safe_send_to_telegram`, over the character list of the text. -/
def telegramChunks (s : List Char) : List (List Char) :=
  chunkAux s.length s

/-- Trace of one `safe_send_to_telegram` call: the text of each POST to
the chat API, and the sleeps performed. -/
structure TelegramTrace where
  calls : List String
  sleeps : List ℚ
deriving DecidableEq

/-- Model of `safe_send_to_telegram` from `src/main.py`: one POST per 4000-character
part, with `time.sleep(1)` after each part. -/
def safe_send_to_telegram (text : String) : TelegramTrace :=
  let parts := (telegramChunks text.data).map (fun l => (⟨l⟩ : String))
  { calls := parts
    sleeps := List.replicate parts.length 1 }

/-- A player entry of a match team (`battleTag` and optional `race`). -/
structure MPlayer where
  battleTag : String
  race : Option Int
deriving DecidableEq

/-- A team of a match record: its players and whether it won. -/
structure Team where
  players : List MPlayer
  won : Bool
deriving DecidableEq

/-- A match record as consumed by `analyze_matches`: its teams. -/
structure MatchRec where
  teams : List Team
deriving DecidableEq

/-- Setting `MATCHES_TO_ANALYZE` (default value of the environment variable). -/
def MATCHES_TO_ANALYZE : Nat := 10

/-- Race number to display name (the `race_map.get` lookup, with the
fallback UNK for an unmapped or missing race). -/
def raceName (race : Option Int) : String :=
  match race with
  | some 1 => "HU"
  | some 2 => "OR"
  | some 3 => "UD"
  | some 4 => "NE"
  | _ => "UNK"

/-- One iteration of the inner `for player in team.players` loop of
`analyze_matches`: a matching tag assigns `player_team := team`, any
other tag assigns `opponent_team := team`. -/
def scanPlayer (pid : String) (team : Team)
    (acc2 : Option Team × Option Team) (p : MPlayer) :
    Option Team × Option Team :=
  if p.battleTag = pid then (some team, acc2.2) else (acc2.1, some team)

/-- The inner loop over one team's players. -/
def scanTeam (pid : String) (acc : Option Team × Option Team)
    (team : Team) : Option Team × Option Team :=
  team.players.foldl (scanPlayer pid team) acc

/-- The nested team/player scan of `analyze_matches`: repeated assignment
of `player_team` / `opponent_team` while iterating all teams and players,
as a left fold.  Returns (player_team, opponent_team). -/
def scanTeams (pid : String) (teams : List Team) : Option Team × Option Team :=
  teams.foldl (scanTeam pid) (none, none)

/-- The opponents line `- {battleTag} ({race}) {icon}`. -/
def opponentLine (player_team : Team) (op : MPlayer) : String :=
  "- " ++ op.battleTag ++ " (" ++ raceName op.race ++ ") " ++
    (if player_team.won then "✅" else "❌")

/-- The body of the `for match in matches[:MATCHES_TO_ANALYZE]` loop of
`analyze_matches`, acting on the accumulator (wins, losses, opponents):
a match without the player is skipped (`continue`); otherwise the win or
loss counter is bumped and, when the scanned opponent team has a first
player, an opponents line is appended. -/
def analyzeStep (pid : String) (acc : Nat × Nat × List String)
    (m : MatchRec) : Nat × Nat × List String :=
  match (scanTeams pid m.teams).1 with
  | none => acc
  | some player_team =>
    ((if player_team.won then acc.1 + 1 else acc.1),
     (if player_team.won then acc.2.1 else acc.2.1 + 1),
     (match (match (scanTeams pid m.teams).2 with
             | some ot => ot.players.head?
             | none => none) with
      | some op => acc.2.2 ++ [opponentLine player_team op]
      | none => acc.2.2))

/-- The accumulated (win_count, lose_count, recent_opponents) after the
`for match in matches[:MATCHES_TO_ANALYZE]` loop of `analyze_matches`. -/
def analyzeAcc (ms : List MatchRec) (pid : String) : Nat × Nat × List String :=
  (ms.take MATCHES_TO_ANALYZE).foldl (analyzeStep pid) (0, 0, [])

/-- Model of `analyze_matches` from `src/main.py`: returns
(win_count, lose_count, winrate, recent_opponents), with
`winrate = (win_count / total) * 100 if total > 0 else 0.0`. -/
def analyze_matches (ms : List MatchRec) (pid : String) :
    Nat × Nat × ℚ × List String :=
  ((analyzeAcc ms pid).1, (analyzeAcc ms pid).2.1,
    (if 0 < (analyzeAcc ms pid).1 + (analyzeAcc ms pid).2.1
     then (((analyzeAcc ms pid).1 : ℚ) /
        (((analyzeAcc ms pid).1 : ℚ) + ((analyzeAcc ms pid).2.1 : ℚ))) * 100
     else 0),
    (analyzeAcc ms pid).2.2)

/-- Whether some team of the match contains a player with tag `pid`. -/
def matchHasPlayer (pid : String) (m : MatchRec) : Bool :=
  m.teams.any (fun t => t.players.any (fun p => p.battleTag == pid))

/-- The global `last_posted_date`: `none` at process start. Dates are
modelled as integers (day ordinals). -/
abbrev RunState := Option Int

/-- The Run Gate check at the top of `/run`
(`if last_posted_date == today: return ...`): reports whether the run may
proceed, and returns the state, which the check leaves untouched. -/
def try_begin_run (st : RunState) (today : Int) : Bool × RunState :=
  (!(st == some today), st)

/-- The Run Gate update `last_posted_date = today` at the end of a
successful `/run` body. -/
def mark_complete (_st : RunState) (today : Int) : RunState :=
  some today

/-- Outcome of the `try:` body of `/run` (player processing and the
deliveries): either it completes, or some step raises with a message. -/
inductive RunOutcome where
  | ok : RunOutcome
  | fails : String → RunOutcome
deriving DecidableEq

/-- The `/run` route handler: gate check, then the body; on completion
the gate is advanced and 200 returned, on an exception the state is left
unchanged and 500 returned. -/
def run (st : RunState) (today : Int) (outcome : RunOutcome) :
    RunState × String × Nat :=
  if (try_begin_run st today).1 = false then
    ((try_begin_run st today).2, "⏱ Already sent today", 200)
  else
    match outcome with
    | RunOutcome.ok => (mark_complete st today, "✅ Bot run success", 200)
    | RunOutcome.fails e => (st, "❌ Error in /run: " ++ e, 500)

/-! Concrete fixtures used to exercise the model on the spec's simulated
scenarios. -/

/-- An enabled destination configuration with a set webhook URL. -/
def cfgTest : DiscordConfig :=
  ⟨"0", "https://discord.example/api/webhooks/1/x", "WC3 Stats"⟩

/-- A small embed built by the embed constructor. -/
def embedTest : Embed := make_player_embed "Stats" "hello" none 0xF1C40F

/-- The payload the sender builds for the batch `[embedTest]`. -/
def payloadTest : Payload := ⟨"WC3 Stats", [embedTest]⟩

/-- Simulated responses [429 (retry_after=2), 429 (retry_after=1), 200]. -/
def respC1 : Nat → Response
  | 0 => ⟨429, "rate limited", some 2⟩
  | 1 => ⟨429, "rate limited", some 1⟩
  | _ => ⟨200, "", none⟩

/-- Simulated responses: 500 on every attempt. -/
def resp500 : Nat → Response := fun _ => ⟨500, "Internal Server Error", none⟩

/-- A 4001-character string (exceeds the embed truncation threshold). -/
def bigStr : String := ⟨List.replicate 4001 'a'⟩

/-- One match record: the tracked player (HU) beat an opponent of an
unmapped race. -/
def msTest : List MatchRec :=
  [⟨[⟨[⟨"A#1", some 1⟩], true⟩, ⟨[⟨"B#2", some 7⟩], false⟩]⟩]

/-! Helper lemmas about the retry loop. -/

/-- Exhaustion step of the loop: out of attempts, return the last seen
response (status and 600-character body prefix). -/
theorem sendLoop_zero (resp : Nat → Response) (last : Response)
    (attempt : Nat) (backoff : ℚ) :
    sendLoop resp last attempt 0 backoff =
      ((last.status, strTake last.body 600), 0, []) := rfl

/-- Single-step unfolding of the loop with at least one attempt left. -/
theorem sendLoop_succ (resp : Nat → Response) (last : Response)
    (attempt fuel : Nat) (backoff : ℚ) :
    sendLoop resp last attempt (fuel + 1) backoff =
      if (resp attempt).status = 200 ∨ (resp attempt).status = 204 then
        (((resp attempt).status, "OK"), 1, [])
      else if (resp attempt).status = 429 then
        ((sendLoop resp (resp attempt) (attempt + 1) fuel backoff).1,
         (sendLoop resp (resp attempt) (attempt + 1) fuel backoff).2.1 + 1,
         ((resp attempt).retryAfter.getD backoff + (1/5 : ℚ) * (attempt : ℚ)) ::
           (sendLoop resp (resp attempt) (attempt + 1) fuel backoff).2.2)
      else
        ((sendLoop resp (resp attempt) (attempt + 1) fuel (min (backoff * 2) 8)).1,
         (sendLoop resp (resp attempt) (attempt + 1) fuel (min (backoff * 2) 8)).2.1 + 1,
         (backoff + (1/5 : ℚ) * (attempt : ℚ)) ::
           (sendLoop resp (resp attempt) (attempt + 1) fuel
             (min (backoff * 2) 8)).2.2) := rfl

/-- The loop makes at most `fuel` POSTs. -/
theorem sendLoop_count_le (resp : Nat → Response) :
    ∀ (fuel : Nat) (last : Response) (attempt : Nat) (backoff : ℚ),
      (sendLoop resp last attempt fuel backoff).2.1 ≤ fuel := by
  intro fuel
  induction fuel with
  | zero => intro last attempt backoff; simp [sendLoop_zero]
  | succ n ih =>
    intro last attempt backoff
    rw [sendLoop_succ]
    split
    · exact Nat.succ_le_succ (Nat.zero_le n)
    · split
      · exact Nat.succ_le_succ (ih (resp attempt) (attempt + 1) backoff)
      · exact Nat.succ_le_succ (ih (resp attempt) (attempt + 1) (min (backoff * 2) 8))

/-- When every one of the `fuel + 1` available attempts observes a
non-success status, the loop performs them all and returns the last
response's status with its body truncated to 600 characters. -/
theorem sendLoop_allFail (resp : Nat → Response) :
    ∀ (fuel attempt : Nat) (last : Response) (backoff : ℚ),
      (∀ i, i ≤ fuel →
        ¬((resp (attempt + i)).status = 200 ∨ (resp (attempt + i)).status = 204)) →
      (sendLoop resp last attempt (fuel + 1) backoff).1 =
        ((resp (attempt + fuel)).status, strTake (resp (attempt + fuel)).body 600)
      ∧ (sendLoop resp last attempt (fuel + 1) backoff).2.1 = fuel + 1 := by
  intro fuel
  induction fuel with
  | zero =>
    intro attempt last backoff h
    have h0 := h 0 le_rfl
    simp only [Nat.add_zero] at h0 ⊢
    rw [sendLoop_succ, if_neg h0]
    by_cases h429 : (resp attempt).status = 429
    · rw [if_pos h429]; exact ⟨rfl, rfl⟩
    · rw [if_neg h429]; exact ⟨rfl, rfl⟩
  | succ n ih =>
    intro attempt last backoff h
    have h0 := h 0 (Nat.zero_le _)
    simp only [Nat.add_zero] at h0
    have hrest : ∀ i, i ≤ n →
        ¬((resp (attempt + 1 + i)).status = 200 ∨
          (resp (attempt + 1 + i)).status = 204) := by
      intro i hi
      have := h (i + 1) (by omega)
      rwa [show attempt + (i + 1) = attempt + 1 + i by omega] at this
    have hidx : attempt + 1 + n = attempt + (n + 1) := by omega
    rw [sendLoop_succ, if_neg h0]
    by_cases h429 : (resp attempt).status = 429
    · rw [if_pos h429]
      have hih := ih (attempt + 1) (resp attempt) backoff hrest
      rw [hidx] at hih
      exact ⟨hih.1, congrArg (· + 1) hih.2⟩
    · rw [if_neg h429]
      have hih := ih (attempt + 1) (resp attempt) (min (backoff * 2) 8) hrest
      rw [hidx] at hih
      exact ⟨hih.1, congrArg (· + 1) hih.2⟩

/-- If the loop's result carries a success status (200/204) then its
message is `"OK"`; the exhaustion return never has a success status
(provided the running `last` response is itself non-success). -/
theorem sendLoop_ok_message (resp : Nat → Response) :
    ∀ (fuel : Nat) (last : Response) (attempt : Nat) (backoff : ℚ),
      ¬(last.status = 200 ∨ last.status = 204) →
      ((sendLoop resp last attempt fuel backoff).1.1 = 200 ∨
        (sendLoop resp last attempt fuel backoff).1.1 = 204) →
      (sendLoop resp last attempt fuel backoff).1.2 = "OK" := by
  intro fuel
  induction fuel with
  | zero =>
    intro last attempt backoff hlast hres
    rw [sendLoop_zero] at hres
    exact absurd hres hlast
  | succ n ih =>
    intro last attempt backoff hlast hres
    rw [sendLoop_succ] at hres ⊢
    by_cases hs : (resp attempt).status = 200 ∨ (resp attempt).status = 204
    · rw [if_pos hs]
    · rw [if_neg hs] at hres ⊢
      by_cases h429 : (resp attempt).status = 429
      · rw [if_pos h429] at hres ⊢
        exact ih (resp attempt) (attempt + 1) backoff hs hres
      · rw [if_neg h429] at hres ⊢
        exact ih (resp attempt) (attempt + 1) (min (backoff * 2) 8) hs hres

/-- C1: on a rate-limited (429) attempt the sleep is the server-advised
`retry_after` (falling back to the current backoff when absent or
unparsable) plus the jitter `0.2 * attempt`, and the continuation runs
with the backoff value unchanged (no exponential growth); moreover, on
the simulated responses [429 (retry_after=2), 429 (retry_after=1), 200],
`send_discord_embeds` makes exactly 3 POSTs, returns success, and sleeps
2 then 1.2 (= 1 + the jitter 0.2·1) between calls. -/
theorem c1_rate_limit_sleep :
    (∀ (resp : Nat → Response) (last : Response) (attempt fuel : Nat)
        (backoff : ℚ),
      (resp attempt).status = 429 →
      sendLoop resp last attempt (fuel + 1) backoff =
        ((sendLoop resp (resp attempt) (attempt + 1) fuel backoff).1,
         (sendLoop resp (resp attempt) (attempt + 1) fuel backoff).2.1 + 1,
         ((resp attempt).retryAfter.getD backoff + (1/5 : ℚ) * (attempt : ℚ)) ::
           (sendLoop resp (resp attempt) (attempt + 1) fuel backoff).2.2))
    ∧ send_discord_embeds cfgTest [embedTest] "" respC1 =
        ((200, "OK"), List.replicate 3 payloadTest, [2, 6/5]) := by
  constructor
  · intro resp last attempt fuel backoff h429
    rw [sendLoop_succ, if_neg (by rw [h429]; decide), if_pos h429]
  · simp [send_discord_embeds, cfgTest, payloadTest, strOr, sendLoop, respC1]
    norm_num

/-- Witness for C1: the first simulated attempt is rate-limited, and the
unfolding equation applies to it. -/
theorem c1_rate_limit_sleep_witness :
    sendLoop respC1 ⟨0, "", none⟩ 0 (4 + 1) 1 =
      ((sendLoop respC1 (respC1 0) (0 + 1) 4 1).1,
       (sendLoop respC1 (respC1 0) (0 + 1) 4 1).2.1 + 1,
       ((respC1 0).retryAfter.getD 1 + (1/5 : ℚ) * ((0 : Nat) : ℚ)) ::
         (sendLoop respC1 (respC1 0) (0 + 1) 4 1).2.2) :=
  c1_rate_limit_sleep.1 respC1 ⟨0, "", none⟩ 0 4 1 rfl

/-- C2: on any other non-success status the sleep is the current backoff
plus the jitter `0.2 * attempt` and the continuation runs with the
backoff doubled and capped at 8; on 5 simulated 500 responses the sender
makes exactly 5 POSTs, returns the 5th status with its body truncated to
at most 600 characters, and the delay sequence 1, 2.2, 4.4, 8.6, 8.8 is
non-decreasing up to the ceiling. -/
theorem c2_backoff_doubling :
    (∀ (resp : Nat → Response) (last : Response) (attempt fuel : Nat)
        (backoff : ℚ),
      ¬((resp attempt).status = 200 ∨ (resp attempt).status = 204) →
      (resp attempt).status ≠ 429 →
      sendLoop resp last attempt (fuel + 1) backoff =
        ((sendLoop resp (resp attempt) (attempt + 1) fuel
            (min (backoff * 2) 8)).1,
         (sendLoop resp (resp attempt) (attempt + 1) fuel
            (min (backoff * 2) 8)).2.1 + 1,
         (backoff + (1/5 : ℚ) * (attempt : ℚ)) ::
           (sendLoop resp (resp attempt) (attempt + 1) fuel
             (min (backoff * 2) 8)).2.2))
    ∧ send_discord_embeds cfgTest [embedTest] "" resp500 =
        ((500, "Internal Server Error"), List.replicate 5 payloadTest,
          [1, 11/5, 22/5, 43/5, 44/5])
    ∧ (send_discord_embeds cfgTest [embedTest] "" resp500).2.2.Chain' (· ≤ ·)
    ∧ (send_discord_embeds cfgTest [embedTest] "" resp500).1.2.length ≤ 600 := by
  have heval : send_discord_embeds cfgTest [embedTest] "" resp500 =
      ((500, "Internal Server Error"), List.replicate 5 payloadTest,
        [1, 11/5, 22/5, 43/5, 44/5]) := by
    simp [send_discord_embeds, cfgTest, payloadTest, strOr, sendLoop, resp500]
    norm_num
    decide
  refine ⟨?_, heval, ?_, ?_⟩
  · intro resp last attempt fuel backoff hs h429
    rw [sendLoop_succ, if_neg hs, if_neg h429]
  · rw [heval]
    norm_num [List.chain'_cons]
  · rw [heval]
    decide

/-- Witness for C2: the first simulated 500 attempt satisfies the
unfolding equation for non-429 failures. -/
theorem c2_backoff_doubling_witness :
    sendLoop resp500 ⟨0, "", none⟩ 0 (4 + 1) 1 =
      ((sendLoop resp500 (resp500 0) (0 + 1) 4 (min ((1 : ℚ) * 2) 8)).1,
       (sendLoop resp500 (resp500 0) (0 + 1) 4 (min ((1 : ℚ) * 2) 8)).2.1 + 1,
       ((1 : ℚ) + (1/5 : ℚ) * ((0 : Nat) : ℚ)) ::
         (sendLoop resp500 (resp500 0) (0 + 1) 4 (min ((1 : ℚ) * 2) 8)).2.2) :=
  c2_backoff_doubling.1 resp500 ⟨0, "", none⟩ 0 4 1 (by decide) (by decide)

/-- C3: `send_discord_embeds` never makes more than 5 POSTs; when all 5
attempts observe non-success statuses it makes exactly 5 and returns the
last observed status paired with the response body truncated to 600
characters (the model's return is a plain value, never an exception),
and a 600-character prefix indeed never exceeds 600 characters. -/
theorem c3_attempt_bound_and_exhaustion :
    (∀ (cfg : DiscordConfig) (embeds : List Embed) (username : String)
        (resp : Nat → Response),
      (send_discord_embeds cfg embeds username resp).2.1.length ≤ 5)
    ∧ (∀ (cfg : DiscordConfig) (embeds : List Embed) (username : String)
        (resp : Nat → Response),
      cfg.disable ≠ "1" → cfg.webhookUrl ≠ "" → embeds ≠ [] →
      (∀ i, i < 5 → ¬((resp i).status = 200 ∨ (resp i).status = 204)) →
      (send_discord_embeds cfg embeds username resp).1 =
        ((resp 4).status, strTake (resp 4).body 600)
      ∧ (send_discord_embeds cfg embeds username resp).2.1.length = 5)
    ∧ (∀ s : String, (strTake s 600).length ≤ 600) := by
  refine ⟨?_, ?_, ?_⟩
  · intro cfg embeds username resp
    unfold send_discord_embeds
    split
    · simp
    · split
      · simp
      · split
        · simp
        · simpa using sendLoop_count_le resp 5 ⟨0, "", none⟩ 0 1
  · intro cfg embeds username resp hdis hurl hemb hfail
    have hall := sendLoop_allFail resp 4 0 ⟨0, "", none⟩ 1
      (by intro i hi; simpa using hfail i (by omega))
    unfold send_discord_embeds
    rw [if_neg hdis, if_neg hurl, if_neg hemb]
    refine ⟨by simpa using hall.1, ?_⟩
    simp [hall.2]
  · intro s
    show (s.data.take 600).length ≤ 600
    simp

/-- Witness for C3: on the all-500 simulation the attempt bound is tight
and the exhaustion return is observed. -/
theorem c3_attempt_bound_and_exhaustion_witness :
    (send_discord_embeds cfgTest [embedTest] "" resp500).2.1.length ≤ 5
    ∧ (send_discord_embeds cfgTest [embedTest] "" resp500).1 =
        ((resp500 4).status, strTake (resp500 4).body 600)
    ∧ (strTake "abc" 600).length ≤ 600 :=
  ⟨c3_attempt_bound_and_exhaustion.1 cfgTest [embedTest] "" resp500,
   (c3_attempt_bound_and_exhaustion.2.1 cfgTest [embedTest] "" resp500
      (by decide) (by decide) (by decide)
      (by intro i _; simp [resp500])).1,
   c3_attempt_bound_and_exhaustion.2.2 "abc"⟩

/-- C4: a disabled destination, an unset webhook URL, and an empty batch
each return immediately, with no POST and no sleep, carrying their own
dedicated `(status, message)` pair; these pairs differ from every reply
the delivery path can produce with a success status (whose message is
always `"OK"`), and the two 204-coded skip pairs also differ from every
exhaustion reply, since an exhaustion reply's status is never 200/204. -/
theorem c4_skip_paths :
    (∀ (cfg : DiscordConfig) (embeds : List Embed) (username : String)
        (resp : Nat → Response),
      cfg.disable = "1" →
      send_discord_embeds cfg embeds username resp =
        ((204, "Discord disabled"), [], []))
    ∧ (∀ (cfg : DiscordConfig) (embeds : List Embed) (username : String)
        (resp : Nat → Response),
      cfg.disable ≠ "1" → cfg.webhookUrl = "" →
      send_discord_embeds cfg embeds username resp =
        ((400, "DISCORD_WEBHOOK_URL is not set"), [], []))
    ∧ (∀ (cfg : DiscordConfig) (username : String) (resp : Nat → Response),
      cfg.disable ≠ "1" → cfg.webhookUrl ≠ "" →
      send_discord_embeds cfg [] username resp =
        ((204, "No embeds to send"), [], []))
    ∧ (∀ (cfg : DiscordConfig) (embeds : List Embed) (username : String)
        (resp : Nat → Response),
      cfg.disable ≠ "1" → cfg.webhookUrl ≠ "" → embeds ≠ [] →
      ((send_discord_embeds cfg embeds username resp).1.1 = 200 ∨
        (send_discord_embeds cfg embeds username resp).1.1 = 204) →
      (send_discord_embeds cfg embeds username resp).1.2 = "OK")
    ∧ ("Discord disabled" ≠ "OK" ∧ "DISCORD_WEBHOOK_URL is not set" ≠ "OK"
        ∧ "No embeds to send" ≠ "OK") := by
  refine ⟨?_, ?_, ?_, ?_, by decide, by decide, by decide⟩
  · intro cfg embeds username resp h
    unfold send_discord_embeds
    rw [if_pos h]
  · intro cfg embeds username resp h1 h2
    unfold send_discord_embeds
    rw [if_neg h1, if_pos h2]
  · intro cfg username resp h1 h2
    unfold send_discord_embeds
    rw [if_neg h1, if_neg h2, if_pos rfl]
  · intro cfg embeds username resp h1 h2 h3 hstat
    unfold send_discord_embeds at hstat ⊢
    rw [if_neg h1, if_neg h2, if_neg h3] at hstat ⊢
    exact sendLoop_ok_message resp 5 ⟨0, "", none⟩ 0 1 (by decide) hstat

/-- Witness for C4: a disabled config, an unset URL, and an empty batch
all short-circuit, and the success reply of the simulated 429/429/200
exchange indeed carries the `"OK"` message. -/
theorem c4_skip_paths_witness :
    send_discord_embeds ⟨"1", "u", "n"⟩ [embedTest] "" respC1 =
      ((204, "Discord disabled"), [], [])
    ∧ send_discord_embeds ⟨"0", "", "n"⟩ [embedTest] "" respC1 =
      ((400, "DISCORD_WEBHOOK_URL is not set"), [], [])
    ∧ send_discord_embeds cfgTest [] "" respC1 =
      ((204, "No embeds to send"), [], [])
    ∧ (send_discord_embeds cfgTest [embedTest] "" respC1).1.2 = "OK" :=
  ⟨c4_skip_paths.1 ⟨"1", "u", "n"⟩ [embedTest] "" respC1 rfl,
   c4_skip_paths.2.1 ⟨"0", "", "n"⟩ [embedTest] "" respC1 (by decide) rfl,
   c4_skip_paths.2.2.1 cfgTest "" respC1 (by decide) (by decide),
   c4_skip_paths.2.2.2.1 cfgTest [embedTest] "" respC1 (by decide) (by decide)
     (by decide) (Or.inl (by
       simp [send_discord_embeds, cfgTest, strOr, sendLoop, respC1]))⟩

/-- The length of a Python slice `s[:n]`. -/
theorem strTake_length (s : String) (n : Nat) :
    (strTake s n).length = min n s.length := by
  show (s.data.take n).length = min n s.data.length
  exact List.length_take n s.data

/-- C5: the gate check does not advance the gate (querying twice with no
intervening completion gives the same answer, so two successive checks
both pass whenever the first does); after `mark_complete D` a check for
`D` fails while a check for `D + 1` passes; in general the check fails
exactly when the stored date equals today, and `/run` on a day already
marked returns the "already sent" reply leaving the state unchanged. -/
theorem c5_run_gate (D : Int) (st : RunState) (o : RunOutcome) :
    ((try_begin_run st D).1 = true →
      (try_begin_run (try_begin_run st D).2 D).1 = true)
    ∧ (try_begin_run (mark_complete st D) D).1 = false
    ∧ (try_begin_run (mark_complete st D) (D + 1)).1 = true
    ∧ ((try_begin_run st D).1 = false ↔ st = some D)
    ∧ run (some D) D o = (some D, "⏱ Already sent today", 200) := by
  refine ⟨fun h => h, ?_, ?_, ?_, ?_⟩
  · simp [try_begin_run, mark_complete]
  · simp [try_begin_run, mark_complete]
  · simp [try_begin_run]
  · simp [run, try_begin_run]

/-- Witness for C5 at `D = 0` from the initial (empty) state. -/
theorem c5_run_gate_witness :
    (try_begin_run (try_begin_run none 0).2 0).1 = true
    ∧ (try_begin_run (mark_complete none 0) 0).1 = false
    ∧ (try_begin_run (mark_complete none 0) (0 + 1)).1 = true
    ∧ run (some 0) 0 RunOutcome.ok = (some 0, "⏱ Already sent today", 200) :=
  ⟨(c5_run_gate 0 none RunOutcome.ok).1 (by decide),
   (c5_run_gate 0 none RunOutcome.ok).2.1,
   (c5_run_gate 0 none RunOutcome.ok).2.2.1,
   (c5_run_gate 0 none RunOutcome.ok).2.2.2.2⟩

/-- C6: a run whose body raises leaves `last_posted_date` unmodified and
returns the 500 failure reply, so a retriggered run still passes the
gate; the gate is advanced (to `some D`) only by the completed-body
branch. -/
theorem c6_failed_run_keeps_gate (st : RunState) (D : Int) (e : String) :
    st ≠ some D →
    run st D (RunOutcome.fails e) = (st, "❌ Error in /run: " ++ e, 500)
    ∧ (try_begin_run (run st D (RunOutcome.fails e)).1 D).1 = true
    ∧ run st D RunOutcome.ok = (some D, "✅ Bot run success", 200) := by
  intro h
  have hb : (st == some D) = false := by simpa using h
  refine ⟨?_, ?_, ?_⟩
  · simp [run, try_begin_run, hb]
  · simp [run, try_begin_run, hb]
  · simp [run, try_begin_run, mark_complete, hb]

/-- Witness for C6: a failing run from the fresh state on day 0. -/
theorem c6_failed_run_keeps_gate_witness :
    run none 0 (RunOutcome.fails "boom") =
      (none, "❌ Error in /run: " ++ "boom", 500)
    ∧ (try_begin_run (run none 0 (RunOutcome.fails "boom")).1 0).1 = true
    ∧ run none 0 RunOutcome.ok = (some 0, "✅ Bot run success", 200) :=
  c6_failed_run_keeps_gate none 0 "boom" (by decide)

/-- C7: a description longer than 4000 characters is replaced by its
first 3995 characters followed by the one-character ellipsis, and the
constructed embed's description never exceeds 4000 characters. -/
theorem c7_description_truncation :
    (∀ (t d : String) (u : Option String) (c : Nat),
      4000 < d.length →
      (make_player_embed t d u c).description = strTake d 3995 ++ "…")
    ∧ (∀ (t d : String) (u : Option String) (c : Nat),
      (make_player_embed t d u c).description.length ≤ 4000) := by
  have hell : ("…" : String).length = 1 := by decide
  have hemp : ("" : String).length = 0 := by decide
  have hne : ∀ d : String, strTake d 3995 ++ "…" ≠ "" := by
    intro d he
    have hl := congrArg String.length he
    rw [String.length_append, strTake_length, hell, hemp] at hl
    omega
  have hdesc : ∀ (t d : String) (u : Option String) (c : Nat),
      (make_player_embed t d u c).description =
        if (if d ≠ "" ∧ 4000 < d.length then strTake d 3995 ++ "…" else d) = ""
        then "​"
        else if d ≠ "" ∧ 4000 < d.length then strTake d 3995 ++ "…" else d :=
    fun _ _ _ _ => rfl
  constructor
  · intro t d u c h
    have hd : d ≠ "" := by
      intro he
      rw [he, hemp] at h
      omega
    rw [hdesc, if_pos (show d ≠ "" ∧ 4000 < d.length from ⟨hd, h⟩),
      if_neg (hne d)]
  · intro t d u c
    rw [hdesc]
    by_cases hc : d ≠ "" ∧ 4000 < d.length
    · rw [if_pos hc, if_neg (hne d), String.length_append, strTake_length, hell]
      have : min 3995 d.length = 3995 := by omega
      omega
    · rw [if_neg hc]
      by_cases hd : d = ""
      · rw [if_pos hd]
        decide
      · rw [if_neg hd]
        have : ¬ 4000 < d.length := fun hgt => hc ⟨hd, hgt⟩
        omega

/-- Witness for C7: a 4001-character description is truncated. -/
theorem c7_description_truncation_witness :
    (make_player_embed "t" bigStr none 0).description =
      strTake bigStr 3995 ++ "…" :=
  c7_description_truncation.1 "t" bigStr none 0 (by
    show 4000 < (List.replicate 4001 'a').length
    rw [List.length_replicate]
    omega)

/-- Value of `chunkAux` on the empty list: empty, whatever the fuel. -/
theorem chunkAux_nil (fuel : Nat) : chunkAux fuel [] = [] := by
  cases fuel <;> rfl

/-- Single-step unfolding of `chunkAux` on a non-empty list. -/
theorem chunkAux_succ_cons (fuel : Nat) (c : Char) (rest : List Char) :
    chunkAux (fuel + 1) (c :: rest) =
      ((c :: rest).take 4000) :: chunkAux fuel ((c :: rest).drop 4000) := rfl

/-- With enough fuel, every chunk has at most 4000 characters and the
chunks concatenate back to the input. -/
theorem chunkAux_spec :
    ∀ (fuel : Nat) (s : List Char), s.length ≤ fuel →
      (∀ p ∈ chunkAux fuel s, p.length ≤ 4000)
      ∧ (chunkAux fuel s).flatten = s := by
  intro fuel
  induction fuel with
  | zero =>
    intro s hs
    cases s with
    | nil => simp [chunkAux_nil]
    | cons c rest => simp at hs
  | succ n ih =>
    intro s hs
    cases s with
    | nil => simp [chunkAux_nil]
    | cons c rest =>
      have hdrop : ((c :: rest).drop 4000).length ≤ n := by
        rw [List.length_drop]
        simp only [List.length_cons] at hs ⊢
        omega
      have hih := ih _ hdrop
      rw [chunkAux_succ_cons]
      constructor
      · intro p hp
        rcases List.mem_cons.mp hp with h | h
        · rw [h]
          simp
        · exact hih.1 p h
      · rw [List.flatten_cons, hih.2]
        exact List.take_append_drop 4000 (c :: rest)

/-- C8: the chat-channel sender splits the text into consecutive chunks
of at most 4000 characters whose in-order concatenation is the original
text, makes one POST per chunk, and sleeps one time unit per chunk. -/
theorem c8_telegram_chunking (text : String) :
    (∀ part ∈ telegramChunks text.data, part.length ≤ 4000)
    ∧ (telegramChunks text.data).flatten = text.data
    ∧ (safe_send_to_telegram text).calls =
        (telegramChunks text.data).map (fun l => (⟨l⟩ : String))
    ∧ (safe_send_to_telegram text).sleeps =
        List.replicate (safe_send_to_telegram text).calls.length 1 := by
  have h := chunkAux_spec text.data.length text.data le_rfl
  exact ⟨h.1, h.2, rfl, rfl⟩

/-- Witness for C8 on the two-character text `"ab"` (a single chunk). -/
theorem c8_telegram_chunking_witness :
    ("ab".data.length ≤ 4000)
    ∧ (telegramChunks "ab".data).flatten = "ab".data :=
  ⟨(c8_telegram_chunking "ab").1 "ab".data (by decide),
   (c8_telegram_chunking "ab").2.1⟩

/-- C9: every POST of a delivery carries exactly the first 10 embeds of
the batch (so at most 10), and the number of POSTs made is the same for
any two non-empty batches against the same responses — embeds beyond the
10th are dropped silently, never causing an error or an extra request. -/
theorem c9_payload_cap (cfg : DiscordConfig) (embeds : List Embed)
    (username : String) (resp : Nat → Response) :
    (∀ p ∈ (send_discord_embeds cfg embeds username resp).2.1,
      p.embeds = embeds.take 10 ∧ p.embeds.length ≤ 10)
    ∧ (∀ e2 : List Embed, embeds ≠ [] → e2 ≠ [] →
      (send_discord_embeds cfg embeds username resp).2.1.length =
        (send_discord_embeds cfg e2 username resp).2.1.length) := by
  constructor
  · intro p hp
    unfold send_discord_embeds at hp
    by_cases h1 : cfg.disable = "1"
    · rw [if_pos h1] at hp
      simp at hp
    · rw [if_neg h1] at hp
      by_cases h2 : cfg.webhookUrl = ""
      · rw [if_pos h2] at hp
        simp at hp
      · rw [if_neg h2] at hp
        by_cases h3 : embeds = []
        · rw [if_pos h3] at hp
          simp at hp
        · rw [if_neg h3] at hp
          have hpe := List.eq_of_mem_replicate hp
          rw [hpe]
          exact ⟨rfl, by simp⟩
  · intro e2 h3 h4
    unfold send_discord_embeds
    by_cases h1 : cfg.disable = "1"
    · simp only [if_pos h1]
    · simp only [if_neg h1]
      by_cases h2 : cfg.webhookUrl = ""
      · simp only [if_pos h2]
      · simp only [if_neg h2, if_neg h3, if_neg h4]
        simp

/-- Witness for C9: the payload of the simulated delivery of the batch
`[embedTest]` is its 10-embed prefix, and a two-embed batch produces the
same number of POSTs. -/
theorem c9_payload_cap_witness :
    (payloadTest.embeds = [embedTest].take 10 ∧ payloadTest.embeds.length ≤ 10)
    ∧ (send_discord_embeds cfgTest [embedTest] "" respC1).2.1.length =
        (send_discord_embeds cfgTest [embedTest, embedTest] "" respC1).2.1.length :=
  ⟨(c9_payload_cap cfgTest [embedTest] "" respC1).1 payloadTest (by
      simp [send_discord_embeds, cfgTest, payloadTest, strOr, sendLoop, respC1]),
   (c9_payload_cap cfgTest [embedTest] "" respC1).2 [embedTest, embedTest]
     (by decide) (by decide)⟩

/-- When no player of the list matches, the inner loop leaves
`player_team` untouched. -/
theorem scanPlayer_foldl_fst_none (pid : String) (team : Team) :
    ∀ (players : List MPlayer) (acc : Option Team × Option Team),
      (∀ p ∈ players, p.battleTag ≠ pid) →
      (players.foldl (scanPlayer pid team) acc).1 = acc.1 := by
  intro players
  induction players with
  | nil => intro acc _; rfl
  | cons p ps ih =>
    intro acc h
    rw [List.foldl_cons]
    have hstep : scanPlayer pid team acc p = (acc.1, some team) := by
      unfold scanPlayer
      rw [if_neg (h p (List.mem_cons_self p ps))]
    rw [hstep]
    exact ih _ (fun q hq => h q (List.mem_cons_of_mem p hq))

/-- The inner loop never resets `player_team` once it is set. -/
theorem scanPlayer_foldl_fst_isSome (pid : String) (team : Team) :
    ∀ (players : List MPlayer) (acc : Option Team × Option Team),
      acc.1.isSome → (players.foldl (scanPlayer pid team) acc).1.isSome := by
  intro players
  induction players with
  | nil => intro acc h; exact h
  | cons p ps ih =>
    intro acc h
    rw [List.foldl_cons]
    apply ih
    unfold scanPlayer
    by_cases hp : p.battleTag = pid
    · rw [if_pos hp]
      rfl
    · rw [if_neg hp]
      exact h

/-- A matching player inside the list sets `player_team`. -/
theorem scanPlayer_foldl_fst_hit (pid : String) (team : Team) :
    ∀ (players : List MPlayer) (acc : Option Team × Option Team),
      (∃ p ∈ players, p.battleTag = pid) →
      (players.foldl (scanPlayer pid team) acc).1.isSome := by
  intro players
  induction players with
  | nil => intro acc h; simp at h
  | cons p ps ih =>
    intro acc h
    rw [List.foldl_cons]
    by_cases hp : p.battleTag = pid
    · apply scanPlayer_foldl_fst_isSome
      unfold scanPlayer
      rw [if_pos hp]
      rfl
    · rcases h with ⟨q, hq, hqt⟩
      rcases List.mem_cons.mp hq with rfl | hq'
      · exact absurd hqt hp
      · exact ih _ ⟨q, hq', hqt⟩

/-- The outer loop never resets `player_team` once it is set. -/
theorem scanTeams_foldl_fst_isSome (pid : String) :
    ∀ (teams : List Team) (acc : Option Team × Option Team),
      acc.1.isSome → (teams.foldl (scanTeam pid) acc).1.isSome := by
  intro teams
  induction teams with
  | nil => intro acc h; exact h
  | cons t ts ih =>
    intro acc h
    rw [List.foldl_cons]
    exact ih _ (scanPlayer_foldl_fst_isSome pid t t.players acc h)

/-- If no player of any team matches, the scan finds no player team. -/
theorem scanTeams_fst_none (pid : String) (teams : List Team) :
    (∀ t ∈ teams, ∀ p ∈ t.players, p.battleTag ≠ pid) →
    (scanTeams pid teams).1 = none := by
  suffices h : ∀ (ts : List Team) (acc : Option Team × Option Team),
      (∀ t ∈ ts, ∀ p ∈ t.players, p.battleTag ≠ pid) →
      (ts.foldl (scanTeam pid) acc).1 = acc.1 by
    intro hh
    exact h teams (none, none) hh
  intro ts
  induction ts with
  | nil => intro acc _; rfl
  | cons t tss ih =>
    intro acc h
    rw [List.foldl_cons]
    rw [ih _ (fun u hu => h u (List.mem_cons_of_mem t hu))]
    exact scanPlayer_foldl_fst_none pid t t.players acc
      (h t (List.mem_cons_self t tss))

/-- If some team has a player with the tag, the scan finds a player
team. -/
theorem scanTeams_fst_isSome (pid : String) (teams : List Team) :
    (∃ t ∈ teams, ∃ p ∈ t.players, p.battleTag = pid) →
    (scanTeams pid teams).1.isSome := by
  suffices h : ∀ (ts : List Team) (acc : Option Team × Option Team),
      (∃ t ∈ ts, ∃ p ∈ t.players, p.battleTag = pid) →
      (ts.foldl (scanTeam pid) acc).1.isSome by
    intro hh
    exact h teams (none, none) hh
  intro ts
  induction ts with
  | nil => intro acc h; simp at h
  | cons t tss ih =>
    intro acc h
    rw [List.foldl_cons]
    rcases h with ⟨u, hu, hup⟩
    rcases List.mem_cons.mp hu with rfl | hu'
    · exact scanTeams_foldl_fst_isSome pid tss _
        (scanPlayer_foldl_fst_hit pid u u.players acc hup)
    · exact ih _ ⟨u, hu', hup⟩

/-- A match without the player leaves the accumulator untouched. -/
theorem analyzeStep_noPlayer (pid : String) (acc : Nat × Nat × List String)
    (m : MatchRec) :
    matchHasPlayer pid m = false → analyzeStep pid acc m = acc := by
  intro h
  have hnone : (scanTeams pid m.teams).1 = none := by
    apply scanTeams_fst_none
    have h' : ∀ t ∈ m.teams, ∀ p ∈ t.players, ¬ p.battleTag = pid := by
      simpa [matchHasPlayer, List.any_eq_false] using h
    exact h'
  unfold analyzeStep
  rw [hnone]

/-- The win+loss total grows by one exactly when the match contains the
player's team. -/
theorem analyzeStep_total (pid : String) (acc : Nat × Nat × List String)
    (m : MatchRec) :
    (analyzeStep pid acc m).1 + (analyzeStep pid acc m).2.1 =
      acc.1 + acc.2.1 +
        (if (scanTeams pid m.teams).1.isSome then 1 else 0) := by
  unfold analyzeStep
  cases hpt : (scanTeams pid m.teams).1 with
  | none => simp
  | some pt =>
    simp only [Option.isSome_some, if_true]
    by_cases hw : pt.won <;> simp [hw] <;> omega

/-- Folding over matches without the player keeps the accumulator. -/
theorem analyzeFold_allNone (pid : String) :
    ∀ (L : List MatchRec) (acc : Nat × Nat × List String),
      (∀ m ∈ L, matchHasPlayer pid m = false) →
      L.foldl (analyzeStep pid) acc = acc := by
  intro L
  induction L with
  | nil => intro acc _; rfl
  | cons m msl ih =>
    intro acc h
    rw [List.foldl_cons, analyzeStep_noPlayer pid acc m
      (h m (List.mem_cons_self m msl))]
    exact ih _ (fun q hq => h q (List.mem_cons_of_mem m hq))

/-- The win+loss total is monotone along the fold. -/
theorem analyzeFold_total_mono (pid : String) :
    ∀ (L : List MatchRec) (acc : Nat × Nat × List String),
      acc.1 + acc.2.1 ≤
        (L.foldl (analyzeStep pid) acc).1 +
          (L.foldl (analyzeStep pid) acc).2.1 := by
  intro L
  induction L with
  | nil => intro acc; exact le_rfl
  | cons m msl ih =>
    intro acc
    rw [List.foldl_cons]
    refine le_trans ?_ (ih (analyzeStep pid acc m))
    rw [analyzeStep_total]
    split <;> omega

/-- A fold over a list containing a match with the player yields a
positive win+loss total. -/
theorem analyzeFold_total_pos (pid : String) :
    ∀ (L : List MatchRec) (acc : Nat × Nat × List String),
      (∃ m ∈ L, matchHasPlayer pid m = true) →
      0 < (L.foldl (analyzeStep pid) acc).1 +
            (L.foldl (analyzeStep pid) acc).2.1 := by
  intro L
  induction L with
  | nil => intro acc h; simp at h
  | cons m msl ih =>
    intro acc h
    rw [List.foldl_cons]
    rcases h with ⟨q, hq, hqp⟩
    rcases List.mem_cons.mp hq with rfl | hq'
    · have hsome : (scanTeams pid q.teams).1.isSome := by
        apply scanTeams_fst_isSome
        simpa [matchHasPlayer, List.any_eq_true] using hqp
      have htot := analyzeStep_total pid acc q
      rw [if_pos hsome] at htot
      refine lt_of_lt_of_le ?_ (analyzeFold_total_mono pid msl _)
      omega
    · exact ih _ ⟨q, hq', hqp⟩

/-- C10: `analyze_matches` never divides by zero: when no analyzed match
contains the player (the empty list included) it returns 0 wins, 0
losses, winrate exactly 0 and no opponents; and whenever the win+loss
total is positive — which holds as soon as some analyzed match contains
the player — the winrate equals wins/(wins+losses)·100. -/
theorem c10_analyze_matches_safe (ms : List MatchRec) (pid : String) :
    ((ms.take MATCHES_TO_ANALYZE).all (fun m => !(matchHasPlayer pid m)) = true →
      analyze_matches ms pid = (0, 0, 0, []))
    ∧ (0 < (analyze_matches ms pid).1 + (analyze_matches ms pid).2.1 →
      (analyze_matches ms pid).2.2.1 =
        ((analyze_matches ms pid).1 : ℚ) /
          (((analyze_matches ms pid).1 : ℚ) +
            ((analyze_matches ms pid).2.1 : ℚ)) * 100)
    ∧ ((∃ m ∈ ms.take MATCHES_TO_ANALYZE, matchHasPlayer pid m = true) →
      0 < (analyze_matches ms pid).1 + (analyze_matches ms pid).2.1) := by
  refine ⟨?_, ?_, ?_⟩
  · intro h
    have hall : ∀ m ∈ ms.take MATCHES_TO_ANALYZE, matchHasPlayer pid m = false := by
      intro m hm
      have := List.all_eq_true.mp h m hm
      simpa using this
    have hacc : analyzeAcc ms pid = (0, 0, []) :=
      analyzeFold_allNone pid (ms.take MATCHES_TO_ANALYZE) (0, 0, []) hall
    simp [analyze_matches, hacc]
  · intro h
    simp only [analyze_matches] at h ⊢
    rw [if_pos h]
  · intro h
    show 0 < (analyzeAcc ms pid).1 + (analyzeAcc ms pid).2.1
    exact analyzeFold_total_pos pid (ms.take MATCHES_TO_ANALYZE) (0, 0, []) h

/-- Witness for C10: the empty match list gives all zeros, and on a
1v1 win both the positivity and the winrate formula hold. -/
theorem c10_analyze_matches_safe_witness :
    analyze_matches [] "A#1" = (0, 0, 0, [])
    ∧ 0 < (analyze_matches msTest "A#1").1 + (analyze_matches msTest "A#1").2.1
    ∧ (analyze_matches msTest "A#1").2.2.1 =
        ((analyze_matches msTest "A#1").1 : ℚ) /
          (((analyze_matches msTest "A#1").1 : ℚ) +
            ((analyze_matches msTest "A#1").2.1 : ℚ)) * 100 :=
  have hpos : 0 < (analyze_matches msTest "A#1").1 +
      (analyze_matches msTest "A#1").2.1 :=
    (c10_analyze_matches_safe msTest "A#1").2.2 (by decide)
  ⟨(c10_analyze_matches_safe [] "A#1").1 (by decide),
   hpos,
   (c10_analyze_matches_safe msTest "A#1").2.1 hpos⟩

end W3C
